import Mathlib

/-!
# Verification of the shop-management demo (src/ekz_inf.cpp)

Shallow embedding of the C++ program: a templated database-connection
wrapper over a SQL client library, three role classes (Admin, Manager,
Customer) issuing parameterized SQL statements, and a console menu
dispatcher.

Modelling conventions:
* Every observable effect of the program is recorded as an `Event` in a
  trace: log lines (spdlog info/error), console output (one event per
  `std::cout` chain; the trailing `std::endl` is the line terminator and
  is not part of the recorded text, while explicit `\n` characters inside
  string literals are kept), statement executions handed to the SQL
  client, and transaction commit/abort calls.
* The SQL client library (pqxx) is external.  Its behaviour at each
  statement execution is an oracle argument: `Option String` for a
  non-query (`none` = success, `some e` = the execution step raised an
  exception with message `e`) and `Except String (List (List String))`
  for a query (`ok rows` = the result set, each row a list of
  text-rendered fields).
* C++ exceptions are an explicit error channel: a function that can let
  an exception escape returns `… × Option String` (or `Except String …`);
  `none` means it returned normally.
* `std::to_string` on `int` and on `double` are modelled exactly:
  the former as decimal rendering of the integer, the latter as the
  C `%f` fixed-point rendering with six fractional digits of the exact
  binary value of the double (doubles are dyadic rationals `m / 2^k`).
-/

/-- One observable effect of the program. -/
inductive Event
  | logInfo (msg : String)
  | logError (msg : String)
  | consoleOut (msg : String)
  | sqlExec (query : String) (params : List String)
  | txnCommit
  | txnAbort
  deriving DecidableEq, Repr

/-- `true` exactly on `Event.txnCommit`. -/
def Event.isCommit : Event → Bool
  | .txnCommit => true
  | _ => false

/-- `true` exactly on `Event.txnAbort`. -/
def Event.isAbort : Event → Bool
  | .txnAbort => true
  | _ => false

/-- `true` exactly on `Event.logError _`. -/
def Event.isLogError : Event → Bool
  | .logError _ => true
  | _ => false

/-- The statement executions of a trace: each `sqlExec` event's
statement text and bound parameters, in trace order. -/
def execsOf (tr : List Event) : List (String × List String) :=
  tr.filterMap fun ev =>
    match ev with
    | .sqlExec q ps => some (q, ps)
    | _ => none

/-- `std::to_string(int)`: decimal rendering, minus sign for negatives. -/
def cppToStringInt (n : Int) : String := toString n

/-- A C++ `double`: the exact dyadic rational `mant / 2 ^ scale`.
Every finite IEEE-754 double has this form. -/
structure CppDouble where
  mant : Int
  scale : Nat
  deriving DecidableEq, Repr

/-- Zero-pad a natural number to six decimal digits. -/
def padSix (n : Nat) : String :=
  let s := toString n
  String.mk (List.replicate (6 - s.length) '0') ++ s

/-- `%f` rendering of the non-negative dyadic `m / 2 ^ k` with six
fractional digits, rounding the exact value to the nearest
multiple of `10 ^ -6` (ties to even). -/
def fixedSix (m : Nat) (k : Nat) : String :=
  let den := 2 ^ k
  let scaled := m * 1000000
  let q := scaled / den
  let r := scaled % den
  let rounded :=
    if den < 2 * r then q + 1
    else if 2 * r < den then q
    else if q % 2 = 0 then q else q + 1
  toString (rounded / 1000000) ++ "." ++ padSix (rounded % 1000000)

/-- `std::to_string(double)`: per the C++ standard, the content
`std::sprintf(buf, "%f", value)` would produce. -/
def cppToStringDouble (d : CppDouble) : String :=
  if d.mant < 0 then "-" ++ fixedSix (-d.mant).toNat d.scale
  else fixedSix d.mant.toNat d.scale

/-- The IEEE-754 double nearest to the literal `9.99`:
`5623870034678907 / 2 ^ 49`. -/
def double9_99 : CppDouble := ⟨5623870034678907, 49⟩

/-- The IEEE-754 double nearest to the literal `99.99`:
`7036170730324623 / 2 ^ 46`. -/
def double99_99 : CppDouble := ⟨7036170730324623, 46⟩

namespace DatabaseConnection

/-- State of one `DatabaseConnection` wrapper: whether the underlying
`pqxx::connection` is open, and the manual-transaction member
`std::unique_ptr<pqxx::work> txn` (`none` = empty pointer, the
default-constructed state). -/
structure State where
  connOpen : Bool
  txn : Option Unit
  deriving DecidableEq, Repr

/-- The message of the constructor's failure exception. -/
def connectFailMsg : String := "Failed to connect to database."

/-- The constructor `DatabaseConnection(connStr)`: the member `conn` is
built from the connection string by the client library; `clientOpen`
is whether `conn.is_open()` then reports open.  If open, an info line
is logged and the wrapper is returned; otherwise an error line is
logged and a `std::runtime_error` is thrown. -/
def construct (clientOpen : Bool) : List Event × Except String State :=
  if clientOpen then
    ([Event.logInfo "Connection to database established."],
     Except.ok ⟨true, none⟩)
  else
    ([Event.logError connectFailMsg], Except.error connectFailMsg)

/-- The row-collection inner loop of `executeQuery`: push each field of
a `pqxx` row onto a fresh vector. -/
def collectRow (row : List String) : List String :=
  row.foldl (fun acc f => acc ++ [f]) []

/-- The row-collection outer loop of `executeQuery`: push each collected
row onto the result vector. -/
def collectRows (res : List (List String)) : List (List String) :=
  res.foldl (fun acc row => acc ++ [collectRow row]) []

/-- `executeQuery(query, params)`: prepares the statement, binds the
parameters positionally, executes inside a `pqxx::nontransaction`.
`execResult` is the client's outcome: on an exception the error is
logged and rethrown; on success the result rows are collected into a
`vector<vector<string>>`. -/
def executeQuery (query : String) (params : List String)
    (execResult : Except String (List (List String))) :
    List Event × Except String (List (List String)) :=
  match execResult with
  | Except.error e =>
      ([Event.sqlExec query params,
        Event.logError ("Error executing query: " ++ e)],
       Except.error e)
  | Except.ok res =>
      ([Event.sqlExec query params], Except.ok (collectRows res))

/-- `executeNonQuery(query, params)`: prepares and binds as above but
executes inside an explicit `pqxx::work` transaction; on success the
transaction is committed, and on an execution exception the error is
logged, the transaction aborted, and the exception rethrown.
`execResult` is the client's outcome of the execution step. -/
def executeNonQuery (query : String) (params : List String)
    (execResult : Option String) : List Event × Option String :=
  match execResult with
  | none =>
      ([Event.sqlExec query params, Event.txnCommit], none)
  | some e =>
      ([Event.sqlExec query params,
        Event.logError ("Error executing non-query: " ++ e),
        Event.txnAbort],
       some e)

/-- `beginTransaction()`: store a fresh `pqxx::work` in `txn`. -/
def beginTransaction (s : State) : State × List Event :=
  ({ s with txn := some () }, [])

/-- `commitTransaction()`: `if (txn) txn->commit();` — guarded by the
null check; the pointer is not reset. -/
def commitTransaction (s : State) : State × List Event :=
  match s.txn with
  | some _ => (s, [Event.txnCommit])
  | none => (s, [])

/-- `rollbackTransaction()`: `if (txn) txn->abort();` — guarded by the
null check; the pointer is not reset. -/
def rollbackTransaction (s : State) : State × List Event :=
  match s.txn with
  | some _ => (s, [Event.txnAbort])
  | none => (s, [])

end DatabaseConnection

/-- An operation body's outcome: the trace it produced and the exception
(if any) about to escape.  `catchLog label` is the role operations'
uniform `try { … } catch (const std::exception& e)` wrapper: it logs
the label followed by `e.what()` and swallows the exception, so the
operation always returns normally. -/
def catchLog (label : String) : List Event × Option String → List Event × Option String
  | (tr, none) => (tr, none)
  | (tr, some e) => (tr ++ [Event.logError (label ++ e)], none)

/-- The error channel of a query outcome, as seen by a caller's catch
block. -/
def queryErr {α : Type} : Except String α → Option String
  | Except.ok _ => none
  | Except.error e => some e

/-- Oracle for a query-issuing operation: what the client's execution
step yields. -/
abbrev QueryOutcome := Except String (List (List String))

namespace Admin

/-- `Admin`'s connection string (default member initializer). -/
def connStr : String := "dbname=shopdb user=admin password=admin"

/-- `Admin::viewOrderStatus(int orderId)`. -/
def viewOrderStatus (orderId : Int) (qr : QueryOutcome) : List Event × Option String :=
  catchLog "Error viewing order status: "
    (let r := DatabaseConnection.executeQuery
        "SELECT status FROM orders WHERE order_id = $1" [cppToStringInt orderId] qr
     (Event.consoleOut ("Viewing status of order ID " ++ cppToStringInt orderId
        ++ " as Admin.") :: r.1,
      queryErr r.2))

/-- `Admin::createOrder()`. -/
def createOrder (r : Option String) : List Event × Option String :=
  catchLog "Error creating order: "
    (let o := DatabaseConnection.executeNonQuery
        "INSERT INTO orders (status) VALUES ($1)" ["pending"] r
     (Event.consoleOut "Admin creates a new order." :: o.1, o.2))

/-- `Admin::cancelOrder(int orderId)`. -/
def cancelOrder (orderId : Int) (r : Option String) : List Event × Option String :=
  catchLog "Error canceling order: "
    (let o := DatabaseConnection.executeNonQuery
        "UPDATE orders SET status = $1 WHERE order_id = $2"
        ["canceled", cppToStringInt orderId] r
     (Event.consoleOut ("Admin cancels order ID " ++ cppToStringInt orderId) :: o.1, o.2))

/-- `Admin::returnOrder(int orderId)`. -/
def returnOrder (orderId : Int) (r : Option String) : List Event × Option String :=
  catchLog "Error returning order: "
    (let o := DatabaseConnection.executeNonQuery
        "UPDATE orders SET status = $1 WHERE order_id = $2"
        ["returned", cppToStringInt orderId] r
     (Event.consoleOut ("Admin returns order ID " ++ cppToStringInt orderId) :: o.1, o.2))

/-- `Admin::addProduct(const std::string& name, double price, int stock)`. -/
def addProduct (name : String) (price : CppDouble) (stock : Int)
    (r : Option String) : List Event × Option String :=
  catchLog "Error adding product: "
    (let o := DatabaseConnection.executeNonQuery
        "INSERT INTO products (name, price, stock_quantity) VALUES ($1, $2, $3)"
        [name, cppToStringDouble price, cppToStringInt stock] r
     (Event.consoleOut ("Admin adds a new product: " ++ name) :: o.1, o.2))

/-- `Admin::deleteProduct(int productId)`. -/
def deleteProduct (productId : Int) (r : Option String) : List Event × Option String :=
  catchLog "Error deleting product: "
    (let o := DatabaseConnection.executeNonQuery
        "DELETE FROM products WHERE product_id = $1" [cppToStringInt productId] r
     (Event.consoleOut ("Admin deletes product with ID: " ++ cppToStringInt productId) :: o.1,
      o.2))

end Admin

namespace Manager

/-- `Manager`'s connection string (default member initializer). -/
def connStr : String := "dbname=shopdb user=manager password=manager"

/-- `Manager::viewOrderStatus(int orderId)`. -/
def viewOrderStatus (orderId : Int) (qr : QueryOutcome) : List Event × Option String :=
  catchLog "Error viewing order status: "
    (let r := DatabaseConnection.executeQuery
        "SELECT status FROM orders WHERE order_id = $1" [cppToStringInt orderId] qr
     (Event.consoleOut ("Viewing status of order ID " ++ cppToStringInt orderId
        ++ " as Manager.") :: r.1,
      queryErr r.2))

/-- `Manager::createOrder()`. -/
def createOrder (r : Option String) : List Event × Option String :=
  catchLog "Error creating order: "
    (let o := DatabaseConnection.executeNonQuery
        "INSERT INTO orders (status) VALUES ($1)" ["pending"] r
     (Event.consoleOut "Manager creates a new order." :: o.1, o.2))

/-- `Manager::cancelOrder(int orderId)`. -/
def cancelOrder (orderId : Int) (r : Option String) : List Event × Option String :=
  catchLog "Error canceling order: "
    (let o := DatabaseConnection.executeNonQuery
        "UPDATE orders SET status = $1 WHERE order_id = $2"
        ["canceled", cppToStringInt orderId] r
     (Event.consoleOut ("Manager cancels order ID " ++ cppToStringInt orderId) :: o.1, o.2))

/-- `Manager::returnOrder(int orderId)`. -/
def returnOrder (orderId : Int) (r : Option String) : List Event × Option String :=
  catchLog "Error returning order: "
    (let o := DatabaseConnection.executeNonQuery
        "UPDATE orders SET status = $1 WHERE order_id = $2"
        ["returned", cppToStringInt orderId] r
     (Event.consoleOut ("Manager returns order ID " ++ cppToStringInt orderId) :: o.1, o.2))

/-- `Manager::approveOrder(int orderId)`. -/
def approveOrder (orderId : Int) (r : Option String) : List Event × Option String :=
  catchLog "Error approving order: "
    (let o := DatabaseConnection.executeNonQuery
        "UPDATE orders SET status = $1 WHERE order_id = $2"
        ["approved", cppToStringInt orderId] r
     (Event.consoleOut ("Manager approves order ID " ++ cppToStringInt orderId) :: o.1, o.2))

end Manager

namespace Customer

/-- `Customer`'s connection string (default member initializer). -/
def connStr : String := "dbname=shopdb user=customer password=customer"

/-- `Customer::viewOrderStatus(int orderId)`. -/
def viewOrderStatus (orderId : Int) (qr : QueryOutcome) : List Event × Option String :=
  catchLog "Error viewing order status: "
    (let r := DatabaseConnection.executeQuery
        "SELECT status FROM orders WHERE order_id = $1" [cppToStringInt orderId] qr
     (Event.consoleOut ("Viewing status of order ID " ++ cppToStringInt orderId
        ++ " as Customer.") :: r.1,
      queryErr r.2))

/-- `Customer::createOrder()`. -/
def createOrder (r : Option String) : List Event × Option String :=
  catchLog "Error creating order: "
    (let o := DatabaseConnection.executeNonQuery
        "INSERT INTO orders (status) VALUES ($1)" ["pending"] r
     (Event.consoleOut "Customer creates a new order." :: o.1, o.2))

/-- `Customer::cancelOrder(int orderId)`. -/
def cancelOrder (orderId : Int) (r : Option String) : List Event × Option String :=
  catchLog "Error canceling order: "
    (let o := DatabaseConnection.executeNonQuery
        "UPDATE orders SET status = $1 WHERE order_id = $2"
        ["canceled", cppToStringInt orderId] r
     (Event.consoleOut ("Customer cancels order ID " ++ cppToStringInt orderId) :: o.1, o.2))

/-- `Customer::returnOrder(int orderId)`. -/
def returnOrder (orderId : Int) (r : Option String) : List Event × Option String :=
  catchLog "Error returning order: "
    (let o := DatabaseConnection.executeNonQuery
        "UPDATE orders SET status = $1 WHERE order_id = $2"
        ["returned", cppToStringInt orderId] r
     (Event.consoleOut ("Customer returns order ID " ++ cppToStringInt orderId) :: o.1, o.2))

/-- `Customer::addToOrder(int orderId, int productId, int quantity)`. -/
def addToOrder (orderId productId quantity : Int) (r : Option String) :
    List Event × Option String :=
  catchLog "Error adding product to order: "
    (let o := DatabaseConnection.executeNonQuery
        "INSERT INTO order_items (order_id, product_id, quantity) VALUES ($1, $2, $3)"
        [cppToStringInt orderId, cppToStringInt productId, cppToStringInt quantity] r
     (Event.consoleOut ("Customer adds product ID " ++ cppToStringInt productId
        ++ " to order ID " ++ cppToStringInt orderId) :: o.1, o.2))

/-- `Customer::removeFromOrder(int orderId, int productId)`. -/
def removeFromOrder (orderId productId : Int) (r : Option String) :
    List Event × Option String :=
  catchLog "Error removing product from order: "
    (let o := DatabaseConnection.executeNonQuery
        "DELETE FROM order_items WHERE order_id = $1 AND product_id = $2"
        [cppToStringInt orderId, cppToStringInt productId] r
     (Event.consoleOut ("Customer removes product ID " ++ cppToStringInt productId
        ++ " from order ID " ++ cppToStringInt orderId) :: o.1, o.2))

end Customer

namespace SharedOps

/-!
Spec-side definitions for the refinement claim: the four shared order
operations written once, parameterized only by the role name that
appears in the console output.  Per the claim, each concrete role's
operation should coincide with the generic one instantiated at its
role name.
-/

/-- Generic `viewOrderStatus`, parameterized by the printed role name. -/
def viewOrderStatus (role : String) (orderId : Int) (qr : QueryOutcome) :
    List Event × Option String :=
  catchLog "Error viewing order status: "
    (let r := DatabaseConnection.executeQuery
        "SELECT status FROM orders WHERE order_id = $1" [cppToStringInt orderId] qr
     (Event.consoleOut ("Viewing status of order ID " ++ cppToStringInt orderId
        ++ " as " ++ role ++ ".") :: r.1,
      queryErr r.2))

/-- Generic `createOrder`, parameterized by the printed role name. -/
def createOrder (role : String) (r : Option String) : List Event × Option String :=
  catchLog "Error creating order: "
    (let o := DatabaseConnection.executeNonQuery
        "INSERT INTO orders (status) VALUES ($1)" ["pending"] r
     (Event.consoleOut (role ++ " creates a new order.") :: o.1, o.2))

/-- Generic `cancelOrder`, parameterized by the printed role name. -/
def cancelOrder (role : String) (orderId : Int) (r : Option String) :
    List Event × Option String :=
  catchLog "Error canceling order: "
    (let o := DatabaseConnection.executeNonQuery
        "UPDATE orders SET status = $1 WHERE order_id = $2"
        ["canceled", cppToStringInt orderId] r
     (Event.consoleOut (role ++ " cancels order ID " ++ cppToStringInt orderId) :: o.1, o.2))

/-- Generic `returnOrder`, parameterized by the printed role name. -/
def returnOrder (role : String) (orderId : Int) (r : Option String) :
    List Event × Option String :=
  catchLog "Error returning order: "
    (let o := DatabaseConnection.executeNonQuery
        "UPDATE orders SET status = $1 WHERE order_id = $2"
        ["returned", cppToStringInt orderId] r
     (Event.consoleOut (role ++ " returns order ID " ++ cppToStringInt orderId) :: o.1, o.2))

end SharedOps

/-- The outcomes the external client hands one iteration of the menu
loop: whether the fresh role object's connection opens, and the results
of the (at most two) statement executions the hardcoded demonstration
sequence performs. -/
structure StepOracle where
  connOpen : Bool
  r1 : Option String
  r2 : Option String

/-- Result of one iteration of the `main` menu loop after reading a
choice: the loop either goes round again (`next`, `running` still
true), exits (`exited`, `running` set false by case 4), or dies on an
uncaught exception escaping `main` (`aborted`). -/
inductive StepResult
  | next (tr : List Event)
  | exited (tr : List Event)
  | aborted (tr : List Event) (e : String)
  deriving DecidableEq, Repr

/-- `true` exactly on `StepResult.next _`. -/
def StepResult.isNext : StepResult → Bool
  | .next _ => true
  | _ => false

/-- One iteration of the menu loop in `main` after `std::cin >> choice`:
the `switch` on `choice`.  Cases 1-3 construct a fresh role object
(whose member connection may fail to open, throwing a connection
error that nothing in `main` catches) and run its hardcoded
demonstration sequence; case 4 clears `running` with no output; the
default case prints the invalid-choice message and loops. -/
def menuStep (choice : Int) (o : StepOracle) : StepResult :=
  if choice = 1 then
    match DatabaseConnection.construct o.connOpen with
    | (ctr, Except.error e) => StepResult.aborted ctr e
    | (ctr, Except.ok _) =>
        StepResult.next (ctr ++ (Admin.addProduct "Product1" double99_99 100 o.r1).1
          ++ (Admin.deleteProduct 1 o.r2).1)
  else if choice = 2 then
    match DatabaseConnection.construct o.connOpen with
    | (ctr, Except.error e) => StepResult.aborted ctr e
    | (ctr, Except.ok _) =>
        StepResult.next (ctr ++ (Manager.approveOrder 1 o.r1).1)
  else if choice = 3 then
    match DatabaseConnection.construct o.connOpen with
    | (ctr, Except.error e) => StepResult.aborted ctr e
    | (ctr, Except.ok _) =>
        StepResult.next (ctr ++ (Customer.createOrder o.r1).1
          ++ (Customer.addToOrder 1 101 2 o.r2).1)
  else if choice = 4 then
    StepResult.exited []
  else
    StepResult.next [Event.consoleOut "Invalid choice. Please try again.\n"]

/-- Whether a statement text is a deletion against the `orders` relation,
i.e. begins with the characters of "DELETE FROM orders". -/
def deletesFromOrders (q : String) : Bool :=
  "DELETE FROM orders".data.isPrefixOf q.data

/-- Folding push-back of mapped elements equals append of the map. -/
theorem foldl_append_singleton {α β : Type} (f : α → β) (l : List α)
    (init : List β) :
    l.foldl (fun acc x => acc ++ [f x]) init = init ++ l.map f := by
  induction l generalizing init with
  | nil => simp
  | cons a as ih => simp [List.foldl, ih]

/-- The field-collection loop returns the row unchanged. -/
theorem collectRow_id (row : List String) :
    DatabaseConnection.collectRow row = row := by
  simpa [DatabaseConnection.collectRow] using
    foldl_append_singleton (fun s : String => s) row []

/-- The row-collection loop returns the result set unchanged. -/
theorem collectRows_id (res : List (List String)) :
    DatabaseConnection.collectRows res = res := by
  have hmap : res.map DatabaseConnection.collectRow = res := by
    induction res with
    | nil => rfl
    | cons a as ih => simp [collectRow_id, ih]
  have h := foldl_append_singleton DatabaseConnection.collectRow res []
  simpa [DatabaseConnection.collectRows, hmap] using h

/-- C1: for every (statement, parameters) pair and every outcome of the
execution step, `executeNonQuery` either commits its transaction exactly
once and returns normally (successful execution), or rolls it back
exactly once and rethrows the error (execution failure) — never both and
never neither. -/
theorem executeNonQuery_commits_once_or_rollsback_once
    (q : String) (ps : List String) (r : Option String) :
    (r = none ∧
      ((DatabaseConnection.executeNonQuery q ps r).1.countP Event.isCommit = 1 ∧
       (DatabaseConnection.executeNonQuery q ps r).1.countP Event.isAbort = 0) ∧
      (DatabaseConnection.executeNonQuery q ps r).2 = none) ∨
    (∃ e, r = some e ∧
      ((DatabaseConnection.executeNonQuery q ps r).1.countP Event.isCommit = 0 ∧
       (DatabaseConnection.executeNonQuery q ps r).1.countP Event.isAbort = 1) ∧
      (DatabaseConnection.executeNonQuery q ps r).2 = some e) := by
  cases r with
  | none => exact Or.inl ⟨rfl, ⟨rfl, rfl⟩, rfl⟩
  | some e => exact Or.inr ⟨e, rfl, ⟨rfl, rfl⟩, rfl⟩

/-- C2: a QueryError raised during the database call of any role
operation (the four shared operations and every role-specific extension,
in all three roles) is caught at that operation's boundary and logged:
the operation's error channel is `none` (the caller observes no failure)
and its trace contains an error-log event; and the menu loop goes round
again (`isNext`) after each demonstration sequence even when every
database call fails. -/
theorem roleOps_swallow_query_errors :
    (∀ (i : Int) (e : String), (Admin.viewOrderStatus i (Except.error e)).2 = none ∧
      (Admin.viewOrderStatus i (Except.error e)).1.any Event.isLogError = true) ∧
    (∀ e, (Admin.createOrder (some e)).2 = none ∧
      (Admin.createOrder (some e)).1.any Event.isLogError = true) ∧
    (∀ (i : Int) (e : String), (Admin.cancelOrder i (some e)).2 = none ∧
      (Admin.cancelOrder i (some e)).1.any Event.isLogError = true) ∧
    (∀ (i : Int) (e : String), (Admin.returnOrder i (some e)).2 = none ∧
      (Admin.returnOrder i (some e)).1.any Event.isLogError = true) ∧
    (∀ (nm : String) (pr : CppDouble) (st : Int) (e : String),
      (Admin.addProduct nm pr st (some e)).2 = none ∧
      (Admin.addProduct nm pr st (some e)).1.any Event.isLogError = true) ∧
    (∀ (i : Int) (e : String), (Admin.deleteProduct i (some e)).2 = none ∧
      (Admin.deleteProduct i (some e)).1.any Event.isLogError = true) ∧
    (∀ (i : Int) (e : String), (Manager.viewOrderStatus i (Except.error e)).2 = none ∧
      (Manager.viewOrderStatus i (Except.error e)).1.any Event.isLogError = true) ∧
    (∀ e, (Manager.createOrder (some e)).2 = none ∧
      (Manager.createOrder (some e)).1.any Event.isLogError = true) ∧
    (∀ (i : Int) (e : String), (Manager.cancelOrder i (some e)).2 = none ∧
      (Manager.cancelOrder i (some e)).1.any Event.isLogError = true) ∧
    (∀ (i : Int) (e : String), (Manager.returnOrder i (some e)).2 = none ∧
      (Manager.returnOrder i (some e)).1.any Event.isLogError = true) ∧
    (∀ (i : Int) (e : String), (Manager.approveOrder i (some e)).2 = none ∧
      (Manager.approveOrder i (some e)).1.any Event.isLogError = true) ∧
    (∀ (i : Int) (e : String), (Customer.viewOrderStatus i (Except.error e)).2 = none ∧
      (Customer.viewOrderStatus i (Except.error e)).1.any Event.isLogError = true) ∧
    (∀ e, (Customer.createOrder (some e)).2 = none ∧
      (Customer.createOrder (some e)).1.any Event.isLogError = true) ∧
    (∀ (i : Int) (e : String), (Customer.cancelOrder i (some e)).2 = none ∧
      (Customer.cancelOrder i (some e)).1.any Event.isLogError = true) ∧
    (∀ (i : Int) (e : String), (Customer.returnOrder i (some e)).2 = none ∧
      (Customer.returnOrder i (some e)).1.any Event.isLogError = true) ∧
    (∀ (a b c : Int) (e : String), (Customer.addToOrder a b c (some e)).2 = none ∧
      (Customer.addToOrder a b c (some e)).1.any Event.isLogError = true) ∧
    (∀ (a b : Int) (e : String), (Customer.removeFromOrder a b (some e)).2 = none ∧
      (Customer.removeFromOrder a b (some e)).1.any Event.isLogError = true) ∧
    (∀ e1 e2, (menuStep 1 ⟨true, some e1, some e2⟩).isNext = true) ∧
    (∀ e1 e2, (menuStep 2 ⟨true, some e1, some e2⟩).isNext = true) ∧
    (∀ e1 e2, (menuStep 3 ⟨true, some e1, some e2⟩).isNext = true) := by
  exact ⟨fun i e => ⟨rfl, rfl⟩, fun e => ⟨rfl, rfl⟩, fun i e => ⟨rfl, rfl⟩,
    fun i e => ⟨rfl, rfl⟩, fun nm pr st e => ⟨rfl, rfl⟩, fun i e => ⟨rfl, rfl⟩,
    fun i e => ⟨rfl, rfl⟩, fun e => ⟨rfl, rfl⟩, fun i e => ⟨rfl, rfl⟩,
    fun i e => ⟨rfl, rfl⟩, fun i e => ⟨rfl, rfl⟩, fun i e => ⟨rfl, rfl⟩,
    fun e => ⟨rfl, rfl⟩, fun i e => ⟨rfl, rfl⟩, fun i e => ⟨rfl, rfl⟩,
    fun a b c e => ⟨rfl, rfl⟩, fun a b e => ⟨rfl, rfl⟩,
    fun e1 e2 => rfl, fun e1 e2 => rfl, fun e1 e2 => rfl⟩

/-- C3 (counterexample): `Admin::addProduct("Widget", 9.99, 10)` issues
one insert whose bound parameters are "Widget", "9.990000", "10" —
`std::to_string(double)` renders six fixed fractional digits — and in
particular the parameter list is NOT ("Widget", "9.99", "10") as the
claim states. -/
theorem addProduct_widget_not_literal_9_99 :
    (execsOf (Admin.addProduct "Widget" double9_99 10 none).1).map Prod.snd =
      [["Widget", "9.990000", "10"]] ∧
    ¬ (execsOf (Admin.addProduct "Widget" double9_99 10 none).1).map Prod.snd =
      [["Widget", "9.99", "10"]] := by
  constructor
  · rfl
  · decide

/-- C3 (amended): `Admin::addProduct("Widget", 9.99, 10)` issues, for
every outcome of the execution step, exactly one insert statement with
exactly three bound parameters "Widget", "9.990000", "10" in that order
(the price rendered by `std::to_string`, i.e. `%f` with six fractional
digits). -/
theorem addProduct_widget_single_insert (r : Option String) :
    execsOf (Admin.addProduct "Widget" double9_99 10 r).1 =
      [("INSERT INTO products (name, price, stock_quantity) VALUES ($1, $2, $3)",
        ["Widget", "9.990000", "10"])] := by
  cases r <;> rfl

/-- C4: constructing a connection wrapper either succeeds — exactly when
the client reports the connection open — returning a wrapper whose
connection is open (and with an empty manual-transaction pointer), after
logging an info line; or, when the client reports not-open, logs an
error line and throws the connection error.  No half-open wrapper is
ever returned. -/
theorem construct_fail_fast_or_open (b : Bool) :
    (b = true ∧ DatabaseConnection.construct b =
      ([Event.logInfo "Connection to database established."],
       Except.ok ⟨true, none⟩)) ∨
    (b = false ∧ DatabaseConnection.construct b =
      ([Event.logError DatabaseConnection.connectFailMsg],
       Except.error DatabaseConnection.connectFailMsg)) := by
  cases b
  · exact Or.inr ⟨rfl, rfl⟩
  · exact Or.inl ⟨rfl, rfl⟩

/-- C5: when the execution step yields a result set of N rows each with
`cols` fields, `executeQuery` returns exactly those N row-sequences, in
result order, each with field count `cols`. -/
theorem executeQuery_row_shape (q : String) (ps : List String)
    (res : List (List String)) (cols : Nat)
    (h : ∀ row ∈ res, row.length = cols) :
    ∃ out, (DatabaseConnection.executeQuery q ps (Except.ok res)).2 = Except.ok out ∧
      out.length = res.length ∧ (∀ row ∈ out, row.length = cols) ∧ out = res := by
  refine ⟨res, ?_, rfl, h, rfl⟩
  simp [DatabaseConnection.executeQuery, collectRows_id]

/-- Witness for C5 at a concrete two-row, two-column result set. -/
theorem executeQuery_row_shape_witness :
    ∃ out, (DatabaseConnection.executeQuery
        "SELECT status FROM orders WHERE order_id = $1" ["1"]
        (Except.ok [["pending", "1"], ["approved", "2"]])).2 = Except.ok out ∧
      out.length = ([["pending", "1"], ["approved", "2"]] : List (List String)).length ∧
      (∀ row ∈ out, row.length = 2) ∧
      out = [["pending", "1"], ["approved", "2"]] :=
  executeQuery_row_shape "SELECT status FROM orders WHERE order_id = $1" ["1"]
    [["pending", "1"], ["approved", "2"]] 2 (by decide)

/-- C6: in the menu loop, input 4 exits with no further output whatever
the client oracle; any input outside 1-4 prints the invalid-choice
message and loops back to the menu (no crash, no termination). -/
theorem menuStep_exit_and_invalid :
    (∀ o : StepOracle, menuStep 4 o = StepResult.exited []) ∧
    (∀ (c : Int) (o : StepOracle), c ≠ 1 → c ≠ 2 → c ≠ 3 → c ≠ 4 →
      menuStep c o =
        StepResult.next [Event.consoleOut "Invalid choice. Please try again.\n"]) := by
  constructor
  · intro o; rfl
  · intro c o h1 h2 h3 h4
    simp [menuStep, h1, h2, h3, h4]

/-- Witness for C6 at the out-of-range input 7. -/
theorem menuStep_invalid_witness :
    menuStep 7 ⟨true, none, none⟩ =
      StepResult.next [Event.consoleOut "Invalid choice. Please try again.\n"] :=
  menuStep_exit_and_invalid.2 7 ⟨true, none, none⟩
    (by decide) (by decide) (by decide) (by decide)

/-- C7: `Customer::addToOrder(1, 101, 2)` issues, for every outcome of
the execution step, exactly one insert into the order-items relation
with bound parameters "1", "101", "2" in that order. -/
theorem addToOrder_single_insert (r : Option String) :
    execsOf (Customer.addToOrder 1 101 2 r).1 =
      [("INSERT INTO order_items (order_id, product_id, quantity) VALUES ($1, $2, $3)",
        ["1", "101", "2"])] := by
  cases r <;> rfl

/-- C8: every role's `createOrder` issues exactly one insert into the
orders relation whose single bound parameter is "pending"; and no role
operation (shared or extension, in any role, with any arguments and any
client outcome) executes a statement whose text begins with
"DELETE FROM orders". -/
theorem createOrder_pending_and_no_orders_delete :
    (∀ r, execsOf (Admin.createOrder r).1 =
      [("INSERT INTO orders (status) VALUES ($1)", ["pending"])]) ∧
    (∀ r, execsOf (Manager.createOrder r).1 =
      [("INSERT INTO orders (status) VALUES ($1)", ["pending"])]) ∧
    (∀ r, execsOf (Customer.createOrder r).1 =
      [("INSERT INTO orders (status) VALUES ($1)", ["pending"])]) ∧
    (∀ (i : Int) (qr : QueryOutcome),
      ((execsOf (Admin.viewOrderStatus i qr).1).all fun qp => !deletesFromOrders qp.1) = true) ∧
    (∀ r, ((execsOf (Admin.createOrder r).1).all fun qp => !deletesFromOrders qp.1) = true) ∧
    (∀ (i : Int) r,
      ((execsOf (Admin.cancelOrder i r).1).all fun qp => !deletesFromOrders qp.1) = true) ∧
    (∀ (i : Int) r,
      ((execsOf (Admin.returnOrder i r).1).all fun qp => !deletesFromOrders qp.1) = true) ∧
    (∀ (nm : String) (pr : CppDouble) (st : Int) r,
      ((execsOf (Admin.addProduct nm pr st r).1).all fun qp => !deletesFromOrders qp.1) = true) ∧
    (∀ (i : Int) r,
      ((execsOf (Admin.deleteProduct i r).1).all fun qp => !deletesFromOrders qp.1) = true) ∧
    (∀ (i : Int) (qr : QueryOutcome),
      ((execsOf (Manager.viewOrderStatus i qr).1).all fun qp => !deletesFromOrders qp.1) = true) ∧
    (∀ r, ((execsOf (Manager.createOrder r).1).all fun qp => !deletesFromOrders qp.1) = true) ∧
    (∀ (i : Int) r,
      ((execsOf (Manager.cancelOrder i r).1).all fun qp => !deletesFromOrders qp.1) = true) ∧
    (∀ (i : Int) r,
      ((execsOf (Manager.returnOrder i r).1).all fun qp => !deletesFromOrders qp.1) = true) ∧
    (∀ (i : Int) r,
      ((execsOf (Manager.approveOrder i r).1).all fun qp => !deletesFromOrders qp.1) = true) ∧
    (∀ (i : Int) (qr : QueryOutcome),
      ((execsOf (Customer.viewOrderStatus i qr).1).all fun qp => !deletesFromOrders qp.1) = true) ∧
    (∀ r, ((execsOf (Customer.createOrder r).1).all fun qp => !deletesFromOrders qp.1) = true) ∧
    (∀ (i : Int) r,
      ((execsOf (Customer.cancelOrder i r).1).all fun qp => !deletesFromOrders qp.1) = true) ∧
    (∀ (i : Int) r,
      ((execsOf (Customer.returnOrder i r).1).all fun qp => !deletesFromOrders qp.1) = true) ∧
    (∀ (a b c : Int) r,
      ((execsOf (Customer.addToOrder a b c r).1).all fun qp => !deletesFromOrders qp.1) = true) ∧
    (∀ (a b : Int) r,
      ((execsOf (Customer.removeFromOrder a b r).1).all fun qp => !deletesFromOrders qp.1) = true) := by
  exact ⟨fun r => by cases r <;> rfl, fun r => by cases r <;> rfl,
    fun r => by cases r <;> rfl,
    fun i qr => by cases qr <;> rfl, fun r => by cases r <;> rfl,
    fun i r => by cases r <;> rfl, fun i r => by cases r <;> rfl,
    fun nm pr st r => by cases r <;> rfl, fun i r => by cases r <;> rfl,
    fun i qr => by cases qr <;> rfl, fun r => by cases r <;> rfl,
    fun i r => by cases r <;> rfl, fun i r => by cases r <;> rfl,
    fun i r => by cases r <;> rfl,
    fun i qr => by cases qr <;> rfl, fun r => by cases r <;> rfl,
    fun i r => by cases r <;> rfl, fun i r => by cases r <;> rfl,
    fun a b c r => by cases r <;> rfl, fun a b r => by cases r <;> rfl⟩

/-- C9: each of the four shared operations of Admin, Manager and
Customer coincides, on every input and client outcome, with the single
generic implementation instantiated at that role's printed name — so the
three implementations issue the same statement text with the same bound
parameters and differ only in the role name in the console line (their
wrappers' credentials differing only in the connection string). -/
theorem roles_differ_only_in_name :
    (∀ (i : Int) (q : QueryOutcome),
      Admin.viewOrderStatus i q = SharedOps.viewOrderStatus "Admin" i q) ∧
    (∀ (i : Int) (q : QueryOutcome),
      Manager.viewOrderStatus i q = SharedOps.viewOrderStatus "Manager" i q) ∧
    (∀ (i : Int) (q : QueryOutcome),
      Customer.viewOrderStatus i q = SharedOps.viewOrderStatus "Customer" i q) ∧
    (∀ r, Admin.createOrder r = SharedOps.createOrder "Admin" r) ∧
    (∀ r, Manager.createOrder r = SharedOps.createOrder "Manager" r) ∧
    (∀ r, Customer.createOrder r = SharedOps.createOrder "Customer" r) ∧
    (∀ (i : Int) r, Admin.cancelOrder i r = SharedOps.cancelOrder "Admin" i r) ∧
    (∀ (i : Int) r, Manager.cancelOrder i r = SharedOps.cancelOrder "Manager" i r) ∧
    (∀ (i : Int) r, Customer.cancelOrder i r = SharedOps.cancelOrder "Customer" i r) ∧
    (∀ (i : Int) r, Admin.returnOrder i r = SharedOps.returnOrder "Admin" i r) ∧
    (∀ (i : Int) r, Manager.returnOrder i r = SharedOps.returnOrder "Manager" i r) ∧
    (∀ (i : Int) r, Customer.returnOrder i r = SharedOps.returnOrder "Customer" i r) := by
  refine ⟨?_, ?_, ?_, fun r => rfl, fun r => rfl, fun r => rfl,
    fun i r => rfl, fun i r => rfl, fun i r => rfl,
    fun i r => rfl, fun i r => rfl, fun i r => rfl⟩
  · intro i q
    simp [Admin.viewOrderStatus, SharedOps.viewOrderStatus, String.append_assoc]
  · intro i q
    simp [Manager.viewOrderStatus, SharedOps.viewOrderStatus, String.append_assoc]
  · intro i q
    simp [Customer.viewOrderStatus, SharedOps.viewOrderStatus, String.append_assoc]

/-- C10: on a wrapper whose manual-transaction pointer is empty (as on
any wrapper on which `beginTransaction` was never called),
`commitTransaction` and `rollbackTransaction` are safe no-ops: the
null-pointer guard makes both leave the state unchanged and perform no
transaction call. -/
theorem txn_null_guard_noop (s : DatabaseConnection.State) (h : s.txn = none) :
    DatabaseConnection.commitTransaction s = (s, []) ∧
    DatabaseConnection.rollbackTransaction s = (s, []) := by
  simp [DatabaseConnection.commitTransaction, DatabaseConnection.rollbackTransaction, h]

/-- Witness for C10 on a freshly constructed wrapper state. -/
theorem txn_null_guard_noop_witness :
    DatabaseConnection.commitTransaction ⟨true, none⟩ = (⟨true, none⟩, []) ∧
    DatabaseConnection.rollbackTransaction ⟨true, none⟩ = (⟨true, none⟩, []) :=
  txn_null_guard_noop ⟨true, none⟩ rfl
